import Mathlib

set_option maxRecDepth 8192

/-!
Verification of the Verity-Nodes client-side pipeline orchestrator
(`src/frontend/src/app/page.tsx` and the components it drives).

The development shallowly embeds the relevant TypeScript into Lean:
pure view helpers (`ComplianceGauge.getColor`, `formatEUR`), the
tick-level progress animator (`animateProgress`), and the session
pipeline `handleFilesAccepted` as a big-step interpreter over an
explicit environment of network outcomes.
-/

namespace VerityNodes

/- ## Basic data model (page.tsx, type definitions) -/

/-- Log severity tier (page.tsx `AgentLogEntry.severity`). -/
inductive Severity where
  | INFO
  | WARNING
  | ERROR
  | CRITICAL
  deriving DecidableEq, Repr

/-- Agent tag of a log entry (page.tsx `AgentLogEntry.agent`). -/
inductive AgentTag where
  | DEEP_AUDITOR
  | REGULATORY_SHIELD
  | ACTION_AGENT
  | SYSTEM
  | HUMAN
  deriving DecidableEq, Repr

/-- One event-log record (page.tsx `AgentLogEntry`).  The wall-clock ISO
timestamp string is abstracted to a `Nat` tick supplied by the embedding. -/
structure AgentLogEntry where
  audit_id : Option String
  timestamp : Nat
  agent : AgentTag
  action : String
  details : String
  severity : Severity
  deriving DecidableEq, Repr

/-- An accepted document (page.tsx `UploadedFile`); the base64 payload is
kept abstract as a string. -/
structure UploadedFile where
  name : String
  size : Nat
  type : String
  base64 : String
  deriving DecidableEq, Repr

/-- Stage status (page.tsx `ProcessingStage.status`). -/
inductive StageStatus where
  | pending
  | active
  | complete
  | error
  deriving DecidableEq, Repr

/-- One pipeline stage (page.tsx `ProcessingStage`). -/
structure ProcessingStage where
  label : String
  icon : String
  status : StageStatus
  deriving DecidableEq, Repr

/-- page.tsx `DEFAULT_STAGES`. -/
def DEFAULT_STAGES : List ProcessingStage :=
  [ { label := "Ingest", icon := "📤", status := .pending },
    { label := "OCR", icon := "👁️", status := .pending },
    { label := "Audit", icon := "🔍", status := .pending },
    { label := "Shield", icon := "⚖️", status := .pending },
    { label := "Action", icon := "🔧", status := .pending } ]

/-- Agent status (page.tsx `AgentState`). -/
inductive AgentState where
  | ACTIVE
  | IDLE
  | ERROR
  | PROCESSING
  | SUCCESS
  | ESCALATED
  deriving DecidableEq, Repr

/- ## ComplianceGauge.getColor (src/unnamed/part_002, lines 59-64) -/

/-- Stroke/glow pair returned by `ComplianceGauge.getColor`. -/
structure GaugeColor where
  stroke : String
  glow : String
  deriving DecidableEq, Repr

namespace ComplianceGauge

/-- ComplianceGauge `getColor` (src/unnamed/part_002): risk-tier banding of
the gauge color from the (animated) risk value.  `#FF0040` renders the
critical tier, `#FFB800` warning, `#00E5FF` informational, `#00FF41`
neutral/compliant. -/
def getColor (animatedRisk : ℚ) : GaugeColor :=
  if 8/10 ≤ animatedRisk then { stroke := "#FF0040", glow := "rgba(255,0,64,0.3)" }
  else if 5/10 ≤ animatedRisk then { stroke := "#FFB800", glow := "rgba(255,184,0,0.3)" }
  else if 1/100 ≤ animatedRisk then { stroke := "#00E5FF", glow := "rgba(0,229,255,0.3)" }
  else { stroke := "#00FF41", glow := "rgba(0,255,65,0.3)" }

end ComplianceGauge

/- ## formatEUR (page.tsx, lines 425-429) -/

/-- Integer nearest to `num / den` with ties rounded up, on naturals: the
rounding ECMAScript `Number.prototype.toFixed` performs (ties pick the
larger candidate). -/
def toFixedRound (num den : ℕ) : ℕ :=
  (2 * num + den) / (2 * den)

/-- Model of `(num / den).toFixed(0)` for a nonnegative value given as a
fraction of naturals. -/
def toFixed0 (num den : ℕ) : String :=
  toString (toFixedRound num den)

/-- Model of `(num / den).toFixed(1)` for a nonnegative value given as a
fraction of naturals: one decimal digit, ECMAScript rounding. -/
def toFixed1 (num den : ℕ) : String :=
  let m := toFixedRound (10 * num) den
  toString (m / 10) ++ "." ++ toString (m % 10)

/-- page.tsx `formatEUR`, on integer euro amounts (the exposures the page
feeds it are integral). -/
def formatEUR (n : ℤ) : String :=
  if 1000000 ≤ n then "€" ++ toFixed1 n.toNat 1000000 ++ "M"
  else if 1000 ≤ n then "€" ++ toFixed0 n.toNat 1000 ++ "K"
  else "€" ++ toString n

/- ## animateProgress (page.tsx, lines 135-147), tick-level model -/

/-- Successive displayed values written by the `setInterval` ticks of
`animateProgress`: each tick adds `step` to `current`; once the sum
passes `target` (in the direction of `step`) the tick clamps to `target`
and clears the interval.  `fuel` bounds the recursion; the real timer
stops after at most `ceil(duration / 40)` ticks whenever `step ≠ 0`, so
any fuel at least that large yields the full tick sequence. -/
def ticksAux (step target : ℚ) : ℕ → ℚ → List ℚ
  | 0, _ => []
  | fuel + 1, current =>
    let c := current + step
    if (0 < step ∧ target ≤ c) ∨ (step < 0 ∧ c ≤ target) then [target]
    else c :: ticksAux step target fuel c

/-- The displayed-value sequence produced by one `animateProgress(target,
duration)` call.  `captured` is the value of `extractionProgress` the
`useCallback` closure captured when it was created: the interpolation
starts there (`let current = extractionProgress`), not at the value
currently displayed. -/
def animateProgressTicks (captured target durationMs : ℚ) : List ℚ :=
  let step := (target - captured) / (durationMs / 40)
  ticksAux step target 1000 captured

/-- Displayed progress values of the start of a first-ever session, in
order: the synchronous reset `setExtractionProgress(0)`, then the ticks
of `animateProgress(15, 400)` run to completion, then the ticks of the
session's next call `animateProgress(30, 1000)`.  Both calls go through
the one `animateProgress` closure the running `handleFilesAccepted`
captured, whose `extractionProgress` is the stale value `0`. -/
def staleSessionTrace : List ℚ :=
  0 :: (animateProgressTicks 0 15 400 ++ animateProgressTicks 0 30 1000)

/- ## Payloads of the external collaborators (page.tsx, section 6 shapes) -/

/-- The per-file extraction object, with the fields page.tsx reads. -/
structure Extraction where
  vendor_name : Option String := none
  country_of_origin : Option String := none
  certificate_numbers : Option (List String) := none
  deriving DecidableEq, Repr

/-- A finding inside an orchestration result (only `finding_type` drives
pipeline state). -/
structure Finding where
  finding_type : String
  deriving DecidableEq, Repr

/-- The `emissions_data` object of an orchestration result. -/
structure EmissionsData where
  total_emissions_kg : Option ℚ := none
  deriving DecidableEq, Repr

/-- An element of the orchestration result's `agent_log`, replayed by
`pushLog({ ...log, audit_id: auditId })`: it carries its own timestamp. -/
structure RawLogEntry where
  timestamp : Nat
  agent : AgentTag
  action : String
  details : String
  severity : Severity
  deriving DecidableEq, Repr

/-- The parsed orchestration response body (`realAuditData`), with every
field page.tsx reads optional, since the code defends each read with
`||` / `?.` defaults. -/
structure AuditData where
  audit_id : Option String := none
  findings_count : Option ℤ := none
  violations_count : Option ℤ := none
  corrective_actions : Option (List String) := none
  total_financial_exposure_eur : Option ℚ := none
  findings : Option (List Finding) := none
  resolution_status : Option String := none
  emissions_data : Option EmissionsData := none
  agent_log : Option (List RawLogEntry) := none
  deriving DecidableEq, Repr

/-- A supply-chain topology node (page.tsx `activeNodes` elements). -/
structure ChainNode where
  id : String
  label : String
  type : String
  status : String
  location : Option String := none
  subLabel : Option String := none
  emissions : Option String := none
  deriving DecidableEq, Repr

/-- The initial `activeNodes` value (page.tsx, lines 114-121). -/
def initialActiveNodes : List ChainNode :=
  [ { id := "1", label := "GreenTextile GmbH", type := "supplier", status := "unverified", location := some ("Bangladesh") },
    { id := "2", label := "Port Chittagong", type := "port", status := "unverified", location := some ("BDCGP") },
    { id := "3", label := "MSC AURORA", type := "logistics", status := "verified", location := some ("Indian Ocean"), subLabel := some ("Vessel: 9817078") },
    { id := "4", label := "Port Hamburg", type := "port", status := "verified", location := some ("DEHAM") },
    { id := "5", label := "EU Distribution", type := "warehouse", status := "unverified", location := some ("Germany") },
    { id := "6", label := "Retail (EU Market)", type := "destination", status := "verified", location := some ("EU") } ]

/- ## Component state (page.tsx `WarRoom` useState hooks) -/

/-- The mutable state of the WarRoom component that the pipeline drives.
(`currentTime`, a clock display fed by an unrelated interval, is omitted.) -/
structure WarRoomState where
  auditResult : Option AuditData
  agentLog : List AgentLogEntry
  isRunning : Bool
  currentAuditId : String
  riskScore : ℚ
  findings : List Finding
  violations : List String
  exposure : ℚ
  isExtracting : Bool
  extractionProgress : ℚ
  currentStage : String
  pipelineStages : List ProcessingStage
  auditorState : AgentState
  shieldState : AgentState
  actionState : AgentState
  auditorAction : String
  shieldAction : String
  actionAction : String
  auditorItems : ℤ
  shieldItems : ℤ
  actionItems : ℤ
  selectedAgentFilter : Option String
  activeNodes : List ChainNode
  deriving DecidableEq, Repr

/-- The `useState` initial values. -/
def initialState : WarRoomState :=
  { auditResult := none, agentLog := [], isRunning := false, currentAuditId := "",
    riskScore := 0, findings := [], violations := [], exposure := 0,
    isExtracting := false, extractionProgress := 0, currentStage := "",
    pipelineStages := DEFAULT_STAGES,
    auditorState := .IDLE, shieldState := .IDLE, actionState := .IDLE,
    auditorAction := "Claude 3.5 Vision ready", shieldAction := "EU ESPR vector DB loaded",
    actionAction := "GLEIF + You.com ready",
    auditorItems := 0, shieldItems := 0, actionItems := 0,
    selectedAgentFilter := none, activeNodes := initialActiveNodes }

/- ## Observable effects of a run -/

/-- One fire-and-forget `logAuditEvent` call issued by `pushLog` to the
Supabase collaborator. -/
structure PersistCall where
  audit_id : String
  agent : AgentTag
  action : String
  details : String
  severity : Severity
  deriving DecidableEq, Repr

/-- The JSON body sent to `POST /api/audit/start` (page.tsx, lines 346-352). -/
structure OrchRequest where
  batch_id : String
  supplier_id : String
  supplier_name : String
  documents : List String
  extracted_data : List (Option Extraction)
  deriving DecidableEq, Repr

/-- Side effects recorded by a run: persistence calls fired by `pushLog`,
the orchestration request (if the run got that far), and diagnostic
console warnings from failed persistence calls. -/
structure Effects where
  persistCalls : List PersistCall := []
  orchRequest : Option OrchRequest := none
  console : List String := []
  deriving DecidableEq, Repr

/- ## Environment: outcomes of the awaited network calls -/

/-- Outcome of one `uploadAuditDocument` call (or of the `atob` decode
before it): `thrown` is the per-file `catch`, `result` the returned
`{ path, error }`. -/
inductive UploadOutcome where
  | thrown
  | result (error : Option String) (path : String)
  deriving DecidableEq, Repr

/-- Outcome of one per-file extraction request: transport exception,
`res.ok` with a body `res.json()` rejects, non-2xx status, parsed body
whose `status` is not `"success"`, or a parsed success carrying
`extraction` and `tokens`. -/
inductive ExtractOutcome where
  | thrown
  | malformedBody
  | httpError (status : ℕ) (text : String)
  | statusNotSuccess (error : Option String)
  | ok (extraction : Option Extraction) (tokens : Option (ℕ × ℕ))
  deriving DecidableEq, Repr

/-- Body of the orchestration response: `malformed` means `res.json()`
rejects; `jsonNull` a body that parses to JSON `null` (property access on
it throws inside the `try`); `value` a parsed object. -/
inductive OrchBody where
  | malformed
  | jsonNull
  | value (d : AuditData)
  deriving DecidableEq, Repr

/-- Outcome of the single orchestration request.  `ok` is the HTTP
2xx-ness of the response (`res.ok`); page.tsx never reads it. -/
inductive OrchOutcome where
  | thrown
  | response (ok : Bool) (body : OrchBody)
  deriving DecidableEq, Repr

/-- Everything the environment decides during one `handleFilesAccepted`
call: per-file upload and extraction outcomes (positional; missing
entries default to a thrown call), the orchestration outcome, the
`Date.now()` and `Math.random()` draws, and the positional outcomes of
the fire-and-forget persistence calls (`some msg` = rejected with msg). -/
structure RunEnv where
  uploads : List UploadOutcome := []
  extracts : List ExtractOutcome := []
  orch : OrchOutcome := .thrown
  now : ℕ := 0
  rand : ℕ := 0
  persistFails : List (Option String) := []
  deriving Repr

/- ## JS-truthiness helpers -/

/-- JavaScript `x || dflt` for an optional string: the empty string is
falsy, so it also falls back to the default. -/
def jsOrString (o : Option String) (dflt : String) : String :=
  match o with
  | some s => if s = "" then dflt else s
  | none => dflt

/-- Model of `x.toFixed(1)` for the nonnegative rational figures that
occur (emission totals). -/
def qToFixed1 (x : ℚ) : String :=
  let m := (⌊10 * x + 1/2⌋).toNat
  toString (m / 10) ++ "." ++ toString (m % 10)

/- ## The pipeline interpreter -/

/-- In-flight run data: component state, recorded effects, and a tick
counter standing in for the wall clock that `mkLog` samples. -/
structure RunS where
  st : WarRoomState
  eff : Effects
  clock : ℕ
  deriving DecidableEq, Repr

/-- Model of `pushLog` (page.tsx, lines 149-162): synchronously append the entry to
the local log; if the entry carries a (truthy) `audit_id`, fire one
non-awaited `logAuditEvent` persistence call keyed by it. -/
def pushLogStep (s : WarRoomState) (eff : Effects) (entry : AgentLogEntry) : WarRoomState × Effects :=
  ( { s with agentLog := s.agentLog ++ [entry] },
    match entry.audit_id with
    | some aid =>
        if aid = "" then eff
        else { eff with persistCalls := eff.persistCalls ++
            [{ audit_id := aid, agent := entry.agent, action := entry.action,
               details := entry.details, severity := entry.severity }] }
    | none => eff )

/-- The `pushLog` step lifted to the run record (clock untouched: replayed entries
keep their own timestamps). -/
def pushLogR (r : RunS) (entry : AgentLogEntry) : RunS :=
  let p := pushLogStep r.st r.eff entry
  { st := p.1, eff := p.2, clock := r.clock }

/-- Append a freshly `mkLog`-built entry: it is stamped with the current
clock, and the clock advances. -/
def pushTimed (r : RunS) (mk : ℕ → AgentLogEntry) : RunS :=
  let r' := pushLogR r (mk r.clock)
  { r' with clock := r'.clock + 1 }

/-- Shorthand for `pushLog(mkLog(agent, action, details, severity,
audit_id))`. -/
def emit (r : RunS) (agent : AgentTag) (action details : String) (sev : Severity) (aid : Option String) : RunS :=
  pushTimed r (fun ts =>
    { audit_id := aid, timestamp := ts, agent := agent, action := action,
      details := details, severity := sev })

/-- Model of `updateStage` (page.tsx, lines 131-133). -/
def updateStage (s : WarRoomState) (index : ℕ) (status : StageStatus) : WarRoomState :=
  { s with
    pipelineStages := s.pipelineStages.mapIdx
      (fun i st => if i = index then { st with status := status } else st) }

/-- The `updateStage` helper on a run record. -/
def updateStageR (r : RunS) (i : ℕ) (st : StageStatus) : RunS :=
  { r with st := updateStage r.st i st }

/-- Model of `setCurrentStage`. -/
def setStageMsg (r : RunS) (msg : String) : RunS :=
  { r with st := { r.st with currentStage := msg } }

/-- Big-step abstraction of `animateProgress(target, duration)`: the state
records the last requested target.  The tick-level displayed values,
including the stale-closure start value, are modeled separately by
`animateProgressTicks`. -/
def animate (r : RunS) (target : ℚ) : RunS :=
  { r with st := { r.st with extractionProgress := target } }

/-- The total state purge at the top of `handleFilesAccepted` (page.tsx,
lines 189-195) together with `resetAgents` (lines 177-182).  It runs
before the empty-input check. -/
def purge (s : WarRoomState) : WarRoomState :=
  { s with
    findings := [], violations := [], exposure := 0, riskScore := 0,
    agentLog := [], auditResult := none,
    auditorState := .IDLE, shieldState := .IDLE, actionState := .IDLE,
    auditorAction := "Claude 3.5 Vision ready", shieldAction := "EU ESPR vector DB loaded",
    actionAction := "GLEIF + You.com ready",
    auditorItems := 0, shieldItems := 0, actionItems := 0,
    selectedAgentFilter := none }

/-- Pair each file with its positional outcome; calls beyond the supplied
outcome list default to `dflt`. -/
def withOutcomes {α : Type} (files : List UploadedFile) (outs : List α) (dflt : α) : List (UploadedFile × α) :=
  files.mapIdx (fun i f => (f, outs.getD i dflt))

/- ### Log-entry builders (the literal strings of page.tsx) -/

/-- Model of `files.map((f) => f.name).join(", ")`. -/
def joinNames (files : List UploadedFile) : String :=
  String.intercalate (", ") (files.map (fun f => f.name))

/-- Detail of the `FILE_RECEIVED` entry. -/
def fileReceivedDetail (files : List UploadedFile) : String :=
  "File received: " ++ joinNames files ++ ". Initializing DeepAuditor for OCR and Forensic Analysis..."

/-- Detail of the `INGESTION_COMPLETE` entry. -/
def ingestionCompleteDetail (files : List UploadedFile) : String :=
  "Ingestion Complete. " ++ toString files.length ++ " file(s) stored in Supabase. Forwarding to Claude 3.5 Vision for forensic extraction."

/-- Detail of the `CLAUDE_VISION_OCR` entry. -/
def visionDetail (files : List UploadedFile) : String :=
  "Sending " ++ toString files.length ++ " document(s) to Claude 3.5 Sonnet Vision — extracting vendor, dates, origin, certificates with forensic-grade precision."

/-- The log entry the ingest loop body appends for one file, by upload
outcome (page.tsx, lines 219-242). -/
def ingestLogFor (aid : String) (ts : ℕ) (f : UploadedFile) (o : UploadOutcome) : AgentLogEntry :=
  match o with
  | .thrown =>
      { audit_id := some aid, timestamp := ts, agent := .SYSTEM, action := "SUPABASE_SKIP",
        details := "Supabase storage unavailable. Proceeding with in-memory pipeline.",
        severity := .WARNING }
  | .result err path =>
      match err with
      | some e =>
          if e = "" then
            { audit_id := some aid, timestamp := ts, agent := .SYSTEM, action := "SUPABASE_STORED",
              details := "Document \"" ++ f.name ++ "\" stored in Supabase bucket \x27audits\x27 at path: " ++ path ++ ".",
              severity := .INFO }
          else
            { audit_id := some aid, timestamp := ts, agent := .SYSTEM, action := "SUPABASE_WARN",
              details := "Supabase upload: " ++ e ++ ". Proceeding with in-memory pipeline.",
              severity := .WARNING }
      | none =>
          { audit_id := some aid, timestamp := ts, agent := .SYSTEM, action := "SUPABASE_STORED",
            details := "Document \"" ++ f.name ++ "\" stored in Supabase bucket \x27audits\x27 at path: " ++ path ++ ".",
            severity := .INFO }

/-- Model of `JSON.stringify` on a string array. -/
def jsonListString (l : List String) : String :=
  "[" ++ String.intercalate (",") (l.map (fun s => "\"" ++ s ++ "\"")) ++ "]"

/-- Detail of the `EXTRACTION_COMPLETE` entry. -/
def extractSuccessDetail (e : Option Extraction) (toks : Option (ℕ × ℕ)) : String :=
  "Extracted: Vendor=\"" ++ jsOrString (e.bind (fun x => x.vendor_name)) ("?") ++
  "\", Origin=\"" ++ jsOrString (e.bind (fun x => x.country_of_origin)) ("?") ++
  "\", Certs: " ++ jsonListString ((e.bind (fun x => x.certificate_numbers)).getD []) ++
  ". Tokens: " ++ toString ((toks.map Prod.fst).getD 0) ++ "+" ++ toString ((toks.map Prod.snd).getD 0) ++ "."

/-- The log entry the extraction loop body appends for one file, by
extraction outcome (page.tsx, lines 270-319).  A malformed body rejects
inside the per-file `try`, so it reaches the same `catch` as a transport
exception. -/
def extractLogFor (aid : String) (ts : ℕ) (f : UploadedFile) (o : ExtractOutcome) : AgentLogEntry :=
  match o with
  | .ok e toks =>
      { audit_id := some aid, timestamp := ts, agent := .DEEP_AUDITOR, action := "EXTRACTION_COMPLETE",
        details := extractSuccessDetail e toks, severity := .INFO }
  | .statusNotSuccess err =>
      { audit_id := some aid, timestamp := ts, agent := .DEEP_AUDITOR, action := "EXTRACTION_ERROR",
        details := "Extraction failed for \"" ++ f.name ++ "\": " ++ jsOrString err ("Unknown error") ++ ". Proceeding without this document.",
        severity := .ERROR }
  | .httpError status text =>
      { audit_id := some aid, timestamp := ts, agent := .DEEP_AUDITOR, action := "EXTRACTION_FAILED",
        details := "Backend error (" ++ toString status ++ ") for \"" ++ f.name ++ "\": " ++ text.take 100 ++ ".",
        severity := .ERROR }
  | .thrown =>
      { audit_id := some aid, timestamp := ts, agent := .DEEP_AUDITOR, action := "EXTRACTION_EXCEPTION",
        details := "Network error during extraction of \"" ++ f.name ++ "\".", severity := .ERROR }
  | .malformedBody =>
      { audit_id := some aid, timestamp := ts, agent := .DEEP_AUDITOR, action := "EXTRACTION_EXCEPTION",
        details := "Network error during extraction of \"" ++ f.name ++ "\".", severity := .ERROR }

/- ### Stage loops -/

/-- The sequential per-file upload loop of stage 1. -/
def ingestLoop (aid : String) : RunS → List (UploadedFile × UploadOutcome) → RunS
  | r, [] => r
  | r, (f, o) :: rest =>
      ingestLoop aid (pushTimed r (fun ts => ingestLogFor aid ts f o)) rest

/-- Accumulator of the extraction loop: the run, the `extractedData`
variable (last success, `none` = JS null/undefined), and the
`allExtractedData` aggregate. -/
structure ExtractAcc where
  run : RunS
  extractedData : Option Extraction
  allExtractedData : List (Option Extraction)
  deriving Repr

/-- How one extraction-loop iteration updates the accumulator data after
logging: a success (lines 294-295) overwrites `extractedData` and appends
its extraction to `allExtractedData`; every failure leaves both alone. -/
def extractStepAcc (a : ExtractAcc) (r' : RunS) (o : ExtractOutcome) : ExtractAcc :=
  match o with
  | .ok e _ => { run := r', extractedData := e, allExtractedData := a.allExtractedData ++ [e] }
  | .thrown => { run := r', extractedData := a.extractedData, allExtractedData := a.allExtractedData }
  | .malformedBody => { run := r', extractedData := a.extractedData, allExtractedData := a.allExtractedData }
  | .httpError _ _ => { run := r', extractedData := a.extractedData, allExtractedData := a.allExtractedData }
  | .statusNotSuccess _ => { run := r', extractedData := a.extractedData, allExtractedData := a.allExtractedData }

/-- The sequential per-file extraction loop of stage 2: a success
overwrites `extractedData` and appends its extraction to the aggregate;
every other outcome only logs and moves on. -/
def extractLoop (aid : String) : ExtractAcc → List (UploadedFile × ExtractOutcome) → ExtractAcc
  | a, [] => a
  | a, (f, o) :: rest =>
      extractLoop aid (extractStepAcc a (pushTimed a.run (fun ts => extractLogFor aid ts f o)) o) rest

/-- The replay of the result's embedded `agent_log`:
`pushLog({ ...log, audit_id: auditId })` entry by entry, preserving each
entry's own timestamp. -/
def replayLogs (aid : String) : RunS → List RawLogEntry → RunS
  | r, [] => r
  | r, e :: rest =>
      replayLogs aid (pushLogR r
        { audit_id := some aid, timestamp := e.timestamp, agent := e.agent,
          action := e.action, details := e.details, severity := e.severity }) rest

/- ### Orchestration continuation (page.tsx, lines 355-406) -/

/-- State change of the `catch` branch of the orchestration call
(page.tsx, lines 401-406): error stage message, all three agents ERROR,
and `updateStage` with `error` on indices 2, 3 and 4, written as one flat
update. -/
def orchCatchState (s : WarRoomState) : WarRoomState :=
  { s with
    currentStage := "Pipeline error: Agent backend unreachable.",
    auditorState := AgentState.ERROR, shieldState := AgentState.ERROR, actionState := AgentState.ERROR,
    pipelineStages :=
      ((s.pipelineStages.mapIdx
          (fun i st => if i = 2 then { st with status := StageStatus.error } else st)).mapIdx
        (fun i st => if i = 3 then { st with status := StageStatus.error } else st)).mapIdx
        (fun i st => if i = 4 then { st with status := StageStatus.error } else st) }

/-- The `catch` branch of the orchestration call. -/
def orchCatch (r : RunS) : RunS :=
  { r with st := orchCatchState r.st }

/-- The dynamic topology update on one node (page.tsx, lines 385-394):
the supplier node is flagged exactly when a `SOURCE_MISMATCH` finding is
present; the Chittagong port is verified when the result reports zero
findings under a `VERITY-` audit id; the vessel gains an emissions
annotation when a truthy total-emissions figure is present.  (When
`findings_count` is 0 but `audit_id` is absent, the real page throws
inside this functional update at render time; the model keeps node 2
unchanged in that corner.) -/
def nodeUpdate (d : AuditData) (n : ChainNode) : ChainNode :=
  let hasOriginMismatch := (d.findings.getD []).any (fun f => f.finding_type == "SOURCE_MISMATCH")
  let co2 := d.emissions_data.bind (fun e => e.total_emissions_kg)
  let fcZero : Bool := d.findings_count == some 0
  let aidVerity : Bool := match d.audit_id with
    | some a => a.startsWith ("VERITY-")
    | none => false
  if n.id = "1" then { n with status := if hasOriginMismatch then "flagged" else "verified" }
  else if n.id = "2" then (if fcZero && aidVerity then { n with status := "verified" } else n)
  else if n.id = "3" then
    (match co2 with
     | some c => if c = 0 then n else { n with emissions := some (qToFixed1 c ++ "kg") }
     | none => n)
  else n

/-- Whether the published result escalates the Action agent
(`realAuditData.violations_count > 0`; an absent count compares false). -/
def escalates (d : AuditData) : Bool :=
  match d.violations_count with
  | some v => decide (0 < v)
  | none => false

/-- State change of the success path (page.tsx, lines 364-399), written
as one flat update.  The sequence in the source — per-agent SUCCESS
updates interleaved with `updateStage(2..4, "complete")`, the result
publication, the topology refresh, and the final escalation override of
the Action agent when `violations_count > 0` — collapses to per-field
values (the escalation override is the only later write to an
already-written field, hence the two conditionals). -/
def orchSuccessState (d : AuditData) (s : WarRoomState) : WarRoomState :=
  { s with
    auditorState := AgentState.SUCCESS,
    auditorAction := toString (d.findings_count.getD 0) ++ " findings",
    auditorItems := d.findings_count.getD 0,
    shieldState := AgentState.SUCCESS,
    shieldAction := toString (d.violations_count.getD 0) ++ " violations",
    shieldItems := d.violations_count.getD 0,
    actionState := if escalates d then AgentState.ESCALATED else AgentState.SUCCESS,
    actionAction :=
      if escalates d then "Drafting Escalation Email..."
      else "Status: " ++ jsOrString d.resolution_status ("UNKNOWN"),
    actionItems := (((d.corrective_actions.map List.length).getD 0 : ℕ) : ℤ),
    pipelineStages :=
      ((s.pipelineStages.mapIdx
          (fun i st => if i = 2 then { st with status := StageStatus.complete } else st)).mapIdx
        (fun i st => if i = 3 then { st with status := StageStatus.complete } else st)).mapIdx
        (fun i st => if i = 4 then { st with status := StageStatus.complete } else st),
    currentStage := "Pipeline complete. All agents reported. AI Engine cycle finished.",
    auditResult := some d,
    exposure := d.total_financial_exposure_eur.getD 0,
    activeNodes := s.activeNodes.map (nodeUpdate d) }

/-- The success path of the orchestration call (page.tsx, lines 359-399),
run after `animateProgress(100, 500)`: replay the result's embedded log,
then apply the state updates. -/
def orchSuccess (aid : String) (d : AuditData) (r : RunS) : RunS :=
  let r' := replayLogs aid r (d.agent_log.getD [])
  { r' with st := orchSuccessState d r'.st }

/-- What the awaited orchestration call does once it settles: transport
exceptions and bodies that reject in `res.json()` reach the `catch`; a
JSON-`null` body first drives progress to 100, then throws on the
`agent_log` property access and reaches the `catch`; any parsed object is
processed as a success — `res.ok` is never consulted. -/
def orchContinuation (aid : String) (outcome : OrchOutcome) (r : RunS) : RunS :=
  match outcome with
  | .thrown => orchCatch r
  | .response _ body =>
    match body with
    | .malformed => orchCatch r
    | .jsonNull => orchCatch (animate r 100)
    | .value d => orchSuccess aid d (animate r 100)

/- ### The staged run -/

/-- Stage 1, Ingest (page.tsx, lines 210-250). -/
def stage1 (aid : String) (files : List UploadedFile) (uploads : List UploadOutcome) (r : RunS) : RunS :=
  let r := updateStageR r 0 .active
  let r := setStageMsg r ("Ingesting documents into Supabase \x27audits\x27 bucket...")
  let r := emit r .SYSTEM ("FILE_RECEIVED") (fileReceivedDetail files) .INFO (some aid)
  let r := ingestLoop aid r (withOutcomes files uploads .thrown)
  let r := emit r .SYSTEM ("INGESTION_COMPLETE") (ingestionCompleteDetail files) .INFO (some aid)
  let r := updateStageR r 0 .complete
  animate r 15

/-- Stage 2, OCR extraction (page.tsx, lines 255-323). -/
def stage2 (aid : String) (files : List UploadedFile) (extracts : List ExtractOutcome) (r : RunS) : ExtractAcc :=
  let r := updateStageR r 1 .active
  let r := { r with
    st := { r.st with
      auditorState := .PROCESSING,
      auditorAction := "Claude Vision: Forensic field extraction...",
      currentStage := "Claude 3.5 Sonnet Vision: Forensic field extraction..." } }
  let r := emit r .DEEP_AUDITOR ("CLAUDE_VISION_OCR") (visionDetail files) .INFO (some aid)
  let r := animate r 30
  let a := extractLoop aid { run := r, extractedData := none, allExtractedData := [] } (withOutcomes files extracts .thrown)
  let r := updateStageR a.run 1 .complete
  let r := animate r 40
  { a with run := r }

/-- The stage-3 prelude and request issue (page.tsx, lines 328-353),
written as one flat update: `updateStage(2, "active")`, the three agents
to PROCESSING with their waiting labels, the stage message,
`animateProgress(95, 30000)`, and the orchestration request body built
from the session id, a synthesized supplier id, the
`extractedData?.vendor_name || "Unknown Supplier"` supplier name, the
file names, and the `allExtractedData` aggregate. -/
def stage3Pre (aid : String) (files : List UploadedFile) (extractedData : Option Extraction)
    (allExtracted : List (Option Extraction)) (rand : ℕ) (r : RunS) : RunS :=
  { st := { r.st with
      pipelineStages := r.st.pipelineStages.mapIdx
        (fun i st => if i = 2 then { st with status := StageStatus.active } else st),
      auditorState := .PROCESSING, shieldState := .PROCESSING, actionState := .PROCESSING,
      auditorAction := "Waiting for Claude Core Analysis...",
      shieldAction := "Waiting for Compliance Check...",
      actionAction := "Waiting for Resolution Strategy...",
      currentStage := "DeepAuditor: Cross-referencing against global knowledge graph...",
      extractionProgress := 95 },
    eff := { r.eff with
      orchRequest := some
        { batch_id := aid, supplier_id := "SUP-" ++ toString (rand % 10000),
          supplier_name := jsOrString (extractedData.bind (fun e => e.vendor_name)) ("Unknown Supplier"),
          documents := files.map (fun f => f.name),
          extracted_data := allExtracted } },
    clock := r.clock }

/-- The final `setIsExtracting(false)` (page.tsx, line 408). -/
def finishRun (r : RunS) : RunS :=
  { r with st := { r.st with isExtracting := false } }

/-- Stage 3-5, the combined orchestration step (page.tsx, lines 328-408):
prelude, request issue, awaited continuation, and the final
`setIsExtracting(false)`. -/
def stage3 (aid : String) (files : List UploadedFile) (extractedData : Option Extraction)
    (allExtracted : List (Option Extraction)) (rand : ℕ) (orch : OrchOutcome) (r : RunS) : RunS :=
  finishRun (orchContinuation aid orch (stage3Pre aid files extractedData allExtracted rand r))

/-- The session id `"VERITY-" + Date.now()`. -/
def sessionId (now : ℕ) : String := "VERITY-" ++ toString now

/-- One full `handleFilesAccepted(files)` call, without the post-hoc
persistence-failure bookkeeping: purge, empty-input early return, session
setup, and the three stages in order. -/
def runCore (s0 : WarRoomState) (files : List UploadedFile) (uploads : List UploadOutcome)
    (extracts : List ExtractOutcome) (orch : OrchOutcome) (now rand : ℕ) : RunS :=
  let s1 := purge s0
  if files.isEmpty then { st := s1, eff := {}, clock := 0 }
  else
    let aid := sessionId now
    let s2 := { s1 with
      isExtracting := true, extractionProgress := 0,
      pipelineStages := DEFAULT_STAGES.map (fun s => { s with status := StageStatus.pending }),
      currentAuditId := aid }
    let r0 : RunS := { st := s2, eff := {}, clock := 0 }
    let r1 := stage1 aid files uploads r0
    let a := stage2 aid files extracts r1
    stage3 aid files a.extractedData a.allExtractedData rand orch a.run

/-- The diagnostic console warnings produced by the settled
fire-and-forget persistence calls: each rejected call is caught by
`.catch(err => console.warn(...))` and goes nowhere else. -/
def consoleOfPersist (calls : List PersistCall) (fails : List (Option String)) : List String :=
  (calls.mapIdx (fun i _ => fails.getD i none)).filterMap
    (fun o => o.map (fun m => "[Supabase] Async log failed: " ++ m))

/-- One full `handleFilesAccepted(files)` call under an environment of
network outcomes, with the diagnostic fallout of the non-awaited
persistence calls recorded on the console channel. -/
def handleFilesAccepted (s0 : WarRoomState) (files : List UploadedFile) (env : RunEnv) : RunS :=
  let r := runCore s0 files env.uploads env.extracts env.orch env.now env.rand
  { r with eff := { r.eff with console := consoleOfPersist r.eff.persistCalls env.persistFails } }

/- ## Specification-side derived functions -/

/-- Whether a per-file extraction outcome is a failure (anything but a
parsed success). -/
def extractFailed : ExtractOutcome → Bool
  | .ok _ _ => false
  | _ => true

/-- The extraction objects of exactly the files whose extraction call
succeeded, in file submission order. -/
def successExtractions (files : List UploadedFile) (extracts : List ExtractOutcome) : List (Option Extraction) :=
  (withOutcomes files extracts .thrown).filterMap
    (fun p => match p.2 with
      | .ok e _ => some e
      | .thrown => none
      | .malformedBody => none
      | .httpError _ _ => none
      | .statusNotSuccess _ => none)

/-- The persistence calls (zero or one) that appending one entry through
`pushLog` fires. -/
def entryCall (e : AgentLogEntry) : List PersistCall :=
  match e.audit_id with
  | some a =>
      if a = "" then []
      else [{ audit_id := a, agent := e.agent, action := e.action,
              details := e.details, severity := e.severity }]
  | none => []

/-- The persistence calls that appending a given list of entries through
`pushLog` fires: one per entry with a truthy `audit_id`, in order. -/
def persistOf (entries : List AgentLogEntry) : List PersistCall :=
  entries.flatMap entryCall

/-- The log entries the ingest loop appends, given the clock at loop
entry. -/
def ingestEntries (aid : String) : ℕ → List (UploadedFile × UploadOutcome) → List AgentLogEntry
  | _, [] => []
  | ts, (f, o) :: rest => ingestLogFor aid ts f o :: ingestEntries aid (ts + 1) rest

/-- The log entries the extraction loop appends, given the clock at loop
entry. -/
def extractEntries (aid : String) : ℕ → List (UploadedFile × ExtractOutcome) → List AgentLogEntry
  | _, [] => []
  | ts, (f, o) :: rest => extractLogFor aid ts f o :: extractEntries aid (ts + 1) rest

/-- The entries the orchestration-result replay appends: the result's own
entries rekeyed to the session id, timestamps preserved. -/
def replayEntries (aid : String) (l : List RawLogEntry) : List AgentLogEntry :=
  l.map (fun e =>
    { audit_id := some aid, timestamp := e.timestamp, agent := e.agent,
      action := e.action, details := e.details, severity := e.severity })

/-- The value of the `extractedData` variable after the loop: the
extraction of the last successful file, seeded with the value at loop
entry. -/
def lastSuccess : Option Extraction → List (UploadedFile × ExtractOutcome) → Option Extraction
  | e, [] => e
  | e, (_, o) :: rest =>
    match o with
    | .ok x _ => lastSuccess x rest
    | .thrown => lastSuccess e rest
    | .malformedBody => lastSuccess e rest
    | .httpError _ _ => lastSuccess e rest
    | .statusNotSuccess _ => lastSuccess e rest

/-- The per-file extractions pushed into `allExtractedData`, in loop
order. -/
def successesOf : List (UploadedFile × ExtractOutcome) → List (Option Extraction)
  | [] => []
  | (_, o) :: rest =>
    match o with
    | .ok e _ => e :: successesOf rest
    | .thrown => successesOf rest
    | .malformedBody => successesOf rest
    | .httpError _ _ => successesOf rest
    | .statusNotSuccess _ => successesOf rest

/-- The event log accumulated by the time the orchestration request is
issued: the `FILE_RECEIVED` announcement, the per-file ingest entries,
the `INGESTION_COMPLETE` and `CLAUDE_VISION_OCR` markers, and the
per-file extraction entries. -/
def preOrchLog (aid : String) (files : List UploadedFile) (uploads : List UploadOutcome)
    (extracts : List ExtractOutcome) : List AgentLogEntry :=
  { audit_id := some aid, timestamp := 0, agent := .SYSTEM, action := "FILE_RECEIVED",
    details := fileReceivedDetail files, severity := .INFO }
    :: (ingestEntries aid 1 (withOutcomes files uploads .thrown)
      ++ [{ audit_id := some aid, timestamp := 1 + files.length, agent := .SYSTEM,
            action := "INGESTION_COMPLETE", details := ingestionCompleteDetail files, severity := .INFO },
          { audit_id := some aid, timestamp := 1 + files.length + 1, agent := .DEEP_AUDITOR,
            action := "CLAUDE_VISION_OCR", details := visionDetail files, severity := .INFO }]
      ++ extractEntries aid (1 + files.length + 1 + 1) (withOutcomes files extracts .thrown))

/-- The event log accumulated before the extraction loop starts: the
prefix of `preOrchLog` up to and including the `CLAUDE_VISION_OCR`
marker. -/
def preExtractLog (aid : String) (files : List UploadedFile) (uploads : List UploadOutcome) :
    List AgentLogEntry :=
  { audit_id := some aid, timestamp := 0, agent := .SYSTEM, action := "FILE_RECEIVED",
    details := fileReceivedDetail files, severity := .INFO }
    :: (ingestEntries aid 1 (withOutcomes files uploads .thrown)
      ++ [{ audit_id := some aid, timestamp := 1 + files.length, agent := .SYSTEM,
            action := "INGESTION_COMPLETE", details := ingestionCompleteDetail files, severity := .INFO },
          { audit_id := some aid, timestamp := 1 + files.length + 1, agent := .DEEP_AUDITOR,
            action := "CLAUDE_VISION_OCR", details := visionDetail files, severity := .INFO }])

/-- The component state at the moment the orchestration request is issued
(after stages 1 and 2, before the stage-3 prelude). -/
def preOrchState (s0 : WarRoomState) (aid : String) (files : List UploadedFile)
    (uploads : List UploadOutcome) (extracts : List ExtractOutcome) : WarRoomState :=
  { auditResult := none,
    agentLog := preOrchLog aid files uploads extracts,
    isRunning := s0.isRunning,
    currentAuditId := aid,
    riskScore := 0, findings := [], violations := [], exposure := 0,
    isExtracting := true, extractionProgress := 40,
    currentStage := "Claude 3.5 Sonnet Vision: Forensic field extraction...",
    pipelineStages :=
      [ { label := "Ingest", icon := "📤", status := .complete },
        { label := "OCR", icon := "👁️", status := .complete },
        { label := "Audit", icon := "🔍", status := .pending },
        { label := "Shield", icon := "⚖️", status := .pending },
        { label := "Action", icon := "🔧", status := .pending } ],
    auditorState := .PROCESSING, shieldState := .IDLE, actionState := .IDLE,
    auditorAction := "Claude Vision: Forensic field extraction...",
    shieldAction := "EU ESPR vector DB loaded", actionAction := "GLEIF + You.com ready",
    auditorItems := 0, shieldItems := 0, actionItems := 0,
    selectedAgentFilter := none,
    activeNodes := s0.activeNodes }

/-- The orchestration outcomes the code treats as failures (they reach
the `catch`): a transport exception, a body `res.json()` rejects on, or a
JSON-`null` body (whose property access throws).  A non-2xx response with
a parseable JSON object is NOT here: the code never checks `res.ok`. -/
def orchFailsB : OrchOutcome → Bool
  | .thrown => true
  | .response _ .malformed => true
  | .response _ .jsonNull => true
  | .response _ (.value _) => false

/-- A concrete document used to instantiate theorems. -/
def sampleFile : UploadedFile :=
  { name := "invoice.pdf", size := 245000, type := "application/pdf", base64 := "" }

/- ## Structural lemmas about the interpreter -/

theorem persistOf_nil : persistOf [] = [] := rfl

theorem persistOf_append (a b : List AgentLogEntry) :
    persistOf (a ++ b) = persistOf a ++ persistOf b := by
  simp [persistOf]

theorem persistOf_cons (e : AgentLogEntry) (l : List AgentLogEntry) :
    persistOf (e :: l) = entryCall e ++ persistOf l := by
  simp [persistOf]

theorem pushLogR_spec (r : RunS) (e : AgentLogEntry) :
    pushLogR r e =
      ⟨{ r.st with agentLog := r.st.agentLog ++ [e] },
       { r.eff with persistCalls := r.eff.persistCalls ++ entryCall e },
       r.clock⟩ := by
  unfold pushLogR pushLogStep entryCall
  cases h : e.audit_id with
  | none => simp
  | some a =>
      by_cases ha : a = "" <;> simp [ha]

theorem pushTimed_spec (r : RunS) (mk : ℕ → AgentLogEntry) :
    pushTimed r mk =
      ⟨{ r.st with agentLog := r.st.agentLog ++ [mk r.clock] },
       { r.eff with persistCalls := r.eff.persistCalls ++ entryCall (mk r.clock) },
       r.clock + 1⟩ := by
  unfold pushTimed
  rw [pushLogR_spec]

theorem ingestLoop_spec (aid : String) (l : List (UploadedFile × UploadOutcome)) (r : RunS) :
    ingestLoop aid r l =
      ⟨{ r.st with agentLog := r.st.agentLog ++ ingestEntries aid r.clock l },
       { r.eff with persistCalls := r.eff.persistCalls ++ persistOf (ingestEntries aid r.clock l) },
       r.clock + l.length⟩ := by
  induction l generalizing r with
  | nil => simp [ingestLoop, ingestEntries, persistOf_nil]
  | cons p rest ih =>
      obtain ⟨f, o⟩ := p
      rw [ingestLoop, pushTimed_spec, ih]
      simp only [ingestEntries, persistOf_cons]
      simp [Nat.add_assoc, Nat.add_comm 1 rest.length]

theorem extractLoop_spec (aid : String) (l : List (UploadedFile × ExtractOutcome)) (a : ExtractAcc) :
    extractLoop aid a l =
      { run :=
          ⟨{ a.run.st with agentLog := a.run.st.agentLog ++ extractEntries aid a.run.clock l },
           { a.run.eff with persistCalls := a.run.eff.persistCalls ++ persistOf (extractEntries aid a.run.clock l) },
           a.run.clock + l.length⟩,
        extractedData := lastSuccess a.extractedData l,
        allExtractedData := a.allExtractedData ++ successesOf l } := by
  induction l generalizing a with
  | nil => simp [extractLoop, extractEntries, lastSuccess, successesOf, persistOf_nil]
  | cons p rest ih =>
      obtain ⟨f, o⟩ := p
      rw [extractLoop]
      cases o <;>
        (rw [ih]
         simp only [extractStepAcc, extractEntries, lastSuccess, successesOf, pushTimed_spec,
           persistOf_cons]
         simp [Nat.add_assoc, Nat.add_comm 1 rest.length])

theorem replayLogs_spec (aid : String) (l : List RawLogEntry) (r : RunS) :
    replayLogs aid r l =
      ⟨{ r.st with agentLog := r.st.agentLog ++ replayEntries aid l },
       { r.eff with persistCalls := r.eff.persistCalls ++ persistOf (replayEntries aid l) },
       r.clock⟩ := by
  induction l generalizing r with
  | nil => simp [replayLogs, replayEntries, persistOf_nil]
  | cons e rest ih =>
      rw [replayLogs, pushLogR_spec, ih]
      simp only [replayEntries, List.map_cons, persistOf_cons]
      simp

theorem withOutcomes_length {α : Type} (files : List UploadedFile) (outs : List α) (d : α) :
    (withOutcomes files outs d).length = files.length := by
  simp [withOutcomes]

theorem mapIdxFive {α : Type} (f : ℕ → α → α) (a b c d e : α) :
    List.mapIdx f [a, b, c, d, e] = [f 0 a, f 1 b, f 2 c, f 3 d, f 4 e] := rfl

theorem runCore_spec (s0 : WarRoomState) (files : List UploadedFile)
    (uploads : List UploadOutcome) (extracts : List ExtractOutcome)
    (orch : OrchOutcome) (now rand : ℕ) (h : files ≠ []) :
    runCore s0 files uploads extracts orch now rand =
      stage3 (sessionId now) files
        (lastSuccess none (withOutcomes files extracts .thrown))
        (successesOf (withOutcomes files extracts .thrown))
        rand orch
        ⟨preOrchState s0 (sessionId now) files uploads extracts,
         { persistCalls := persistOf (preOrchLog (sessionId now) files uploads extracts),
           orchRequest := none, console := [] },
         1 + files.length + 1 + 1 + files.length⟩ := by
  unfold runCore
  rw [if_neg (by simpa using h)]
  unfold stage1 stage2
  simp only [emit, updateStageR, setStageMsg, animate, pushTimed_spec, ingestLoop_spec,
    extractLoop_spec, withOutcomes_length]
  simp [preOrchState, preOrchLog, purge, updateStage, DEFAULT_STAGES, mapIdxFive,
    persistOf_cons, persistOf_append, persistOf_nil, entryCall]

theorem successesOf_eq (files : List UploadedFile) (extracts : List ExtractOutcome) :
    successesOf (withOutcomes files extracts .thrown) = successExtractions files extracts := by
  unfold successExtractions
  generalize withOutcomes files extracts .thrown = l
  induction l with
  | nil => simp [successesOf]
  | cons p rest ih =>
      obtain ⟨f, o⟩ := p
      cases o <;> simp [successesOf, ih]

/- ## Field lemmas about the entry builders -/

theorem ingestLogFor_audit_id (aid : String) (ts : ℕ) (f : UploadedFile) (o : UploadOutcome) :
    (ingestLogFor aid ts f o).audit_id = some aid := by
  cases o with
  | thrown => rfl
  | result err path =>
      cases err with
      | none => rfl
      | some e => by_cases he : e = "" <;> simp [ingestLogFor, he]

theorem extractLogFor_audit_id (aid : String) (ts : ℕ) (f : UploadedFile) (o : ExtractOutcome) :
    (extractLogFor aid ts f o).audit_id = some aid := by
  cases o <;> rfl

theorem extractLogFor_agent (aid : String) (ts : ℕ) (f : UploadedFile) (o : ExtractOutcome) :
    (extractLogFor aid ts f o).agent = .DEEP_AUDITOR := by
  cases o <;> rfl

theorem extractLogFor_severity (aid : String) (ts : ℕ) (f : UploadedFile) (o : ExtractOutcome) :
    (extractLogFor aid ts f o).severity = (if extractFailed o then Severity.ERROR else Severity.INFO) := by
  cases o <;> rfl

theorem extractEntries_map_severity (aid : String) (l : List (UploadedFile × ExtractOutcome)) :
    ∀ ts, (extractEntries aid ts l).map (fun e => e.severity) =
      l.map (fun p => if extractFailed p.2 then Severity.ERROR else Severity.INFO) := by
  induction l with
  | nil => intro ts; rfl
  | cons p rest ih =>
      intro ts
      obtain ⟨f, o⟩ := p
      simp [extractEntries, extractLogFor_severity, ih]

theorem extractEntries_length (aid : String) (l : List (UploadedFile × ExtractOutcome)) :
    ∀ ts, (extractEntries aid ts l).length = l.length := by
  induction l with
  | nil => intro ts; rfl
  | cons p rest ih =>
      intro ts
      obtain ⟨f, o⟩ := p
      simp [extractEntries, ih]

theorem extractEntries_mem (aid : String) (l : List (UploadedFile × ExtractOutcome)) :
    ∀ ts, ∀ e ∈ extractEntries aid ts l, e.agent = .DEEP_AUDITOR ∧ e.audit_id = some aid := by
  induction l with
  | nil => intro ts e he; simp [extractEntries] at he
  | cons p rest ih =>
      intro ts e he
      obtain ⟨f, o⟩ := p
      simp only [extractEntries, List.mem_cons] at he
      rcases he with rfl | he
      · exact ⟨extractLogFor_agent aid ts f o, extractLogFor_audit_id aid ts f o⟩
      · exact ih (ts + 1) e he

theorem ingestEntries_mem (aid : String) (l : List (UploadedFile × UploadOutcome)) :
    ∀ ts, ∀ e ∈ ingestEntries aid ts l, e.audit_id = some aid := by
  induction l with
  | nil => intro ts e he; simp [ingestEntries] at he
  | cons p rest ih =>
      intro ts e he
      obtain ⟨f, o⟩ := p
      simp only [ingestEntries, List.mem_cons] at he
      rcases he with rfl | he
      · exact ingestLogFor_audit_id aid ts f o
      · exact ih (ts + 1) e he

theorem replayEntries_mem (aid : String) (l : List RawLogEntry) :
    ∀ e ∈ replayEntries aid l, e.audit_id = some aid := by
  intro e he
  simp only [replayEntries, List.mem_map] at he
  obtain ⟨x, _, rfl⟩ := he
  rfl

theorem preOrchLog_mem (aid : String) (files : List UploadedFile)
    (uploads : List UploadOutcome) (extracts : List ExtractOutcome) :
    ∀ e ∈ preOrchLog aid files uploads extracts, e.audit_id = some aid := by
  intro e he
  simp only [preOrchLog, List.mem_cons, List.mem_append, List.mem_singleton] at he
  rcases he with rfl | he
  · rfl
  rcases he with he | he
  · rcases he with he | he
    · exact ingestEntries_mem aid _ 1 e he
    · rcases he with rfl | rfl | h
      · rfl
      · rfl
      · simp at h
  · exact (extractEntries_mem aid _ _ e he).2

theorem persistOf_of_mem (aid : String) (ha : aid ≠ "") :
    ∀ l : List AgentLogEntry, (∀ e ∈ l, e.audit_id = some aid) →
      persistOf l = l.map (fun e =>
        ({ audit_id := aid, agent := e.agent, action := e.action,
           details := e.details, severity := e.severity } : PersistCall)) := by
  intro l
  induction l with
  | nil => intro; rfl
  | cons e rest ih =>
      intro hmem
      have he : e.audit_id = some aid := hmem e (List.mem_cons_self e rest)
      rw [persistOf_cons, ih (fun x hx => hmem x (List.mem_cons_of_mem e hx))]
      simp [entryCall, he, ha]

theorem sessionId_ne_empty (now : ℕ) : sessionId now ≠ "" := by
  intro h
  have h2 := congrArg String.data h
  rw [show sessionId now = "VERITY-" ++ toString now from rfl] at h2
  simp [String.data_append] at h2

/- ## Run-level decompositions -/

theorem run_log_split (s0 : WarRoomState) (files : List UploadedFile) (env : RunEnv)
    (hne : files ≠ []) :
    ∃ post : List AgentLogEntry,
      (∀ e ∈ post, e.audit_id = some (sessionId env.now)) ∧
      (handleFilesAccepted s0 files env).st.agentLog =
        preOrchLog (sessionId env.now) files env.uploads env.extracts ++ post ∧
      (handleFilesAccepted s0 files env).eff.persistCalls =
        persistOf (preOrchLog (sessionId env.now) files env.uploads env.extracts ++ post) := by
  simp only [handleFilesAccepted]
  rw [runCore_spec s0 files env.uploads env.extracts env.orch env.now env.rand hne]
  cases horch : env.orch with
  | thrown =>
      refine ⟨[], by simp, ?_, ?_⟩ <;>
        simp [stage3, finishRun, orchContinuation, orchCatch, orchCatchState, animate,
          stage3Pre, preOrchState, persistOf_append, persistOf_nil]
  | response k body =>
      cases body with
      | malformed =>
          refine ⟨[], by simp, ?_, ?_⟩ <;>
            simp [stage3, finishRun, orchContinuation, orchCatch, orchCatchState, animate,
              stage3Pre, preOrchState, persistOf_append, persistOf_nil]
      | jsonNull =>
          refine ⟨[], by simp, ?_, ?_⟩ <;>
            simp [stage3, finishRun, orchContinuation, orchCatch, orchCatchState, animate,
              stage3Pre, preOrchState, persistOf_append, persistOf_nil]
      | value d =>
          refine ⟨replayEntries (sessionId env.now) (d.agent_log.getD []),
            replayEntries_mem _ _, ?_, ?_⟩ <;>
            simp [stage3, finishRun, orchContinuation, orchSuccess, orchSuccessState,
              replayLogs_spec, animate, stage3Pre, preOrchState, persistOf_append]

theorem run_terminal_cases (s0 : WarRoomState) (files : List UploadedFile) (env : RunEnv)
    (hne : files ≠ []) :
    (∃ k d, env.orch = .response k (.value d) ∧
      (handleFilesAccepted s0 files env).st.pipelineStages.map (fun s => s.status) =
        [.complete, .complete, .complete, .complete, .complete] ∧
      (handleFilesAccepted s0 files env).st.auditResult = some d) ∨
    (orchFailsB env.orch = true ∧
      (handleFilesAccepted s0 files env).st.pipelineStages.map (fun s => s.status) =
        [.complete, .complete, .error, .error, .error] ∧
      (handleFilesAccepted s0 files env).st.auditResult = none ∧
      (handleFilesAccepted s0 files env).st.auditorState = .ERROR ∧
      (handleFilesAccepted s0 files env).st.shieldState = .ERROR ∧
      (handleFilesAccepted s0 files env).st.actionState = .ERROR) := by
  simp only [handleFilesAccepted]
  rw [runCore_spec s0 files env.uploads env.extracts env.orch env.now env.rand hne]
  cases horch : env.orch with
  | thrown =>
      right
      refine ⟨rfl, ?_, ?_, ?_, ?_, ?_⟩ <;>
        simp [stage3, finishRun, orchContinuation, orchCatch, orchCatchState, animate,
          stage3Pre, mapIdxFive, preOrchState]
  | response k body =>
      cases body with
      | malformed =>
          right
          refine ⟨rfl, ?_, ?_, ?_, ?_, ?_⟩ <;>
            simp [stage3, finishRun, orchContinuation, orchCatch, orchCatchState, animate,
              stage3Pre, mapIdxFive, preOrchState]
      | jsonNull =>
          right
          refine ⟨rfl, ?_, ?_, ?_, ?_, ?_⟩ <;>
            simp [stage3, finishRun, orchContinuation, orchCatch, orchCatchState, animate,
              stage3Pre, mapIdxFive, preOrchState]
      | value d =>
          left
          refine ⟨k, d, rfl, ?_, ?_⟩ <;>
            simp [stage3, finishRun, orchContinuation, orchSuccess, orchSuccessState,
              replayLogs_spec, animate, stage3Pre, mapIdxFive, preOrchState]

theorem preOrchLog_eq (aid : String) (files : List UploadedFile)
    (uploads : List UploadOutcome) (extracts : List ExtractOutcome) :
    preOrchLog aid files uploads extracts =
      preExtractLog aid files uploads ++
        extractEntries aid (1 + files.length + 1 + 1) (withOutcomes files extracts .thrown) := by
  simp [preOrchLog, preExtractLog, List.append_assoc]

theorem run_orchRequest (s0 : WarRoomState) (files : List UploadedFile) (env : RunEnv)
    (hne : files ≠ []) :
    (handleFilesAccepted s0 files env).eff.orchRequest = some
      { batch_id := sessionId env.now,
        supplier_id := "SUP-" ++ toString (env.rand % 10000),
        supplier_name := jsOrString
          ((lastSuccess none (withOutcomes files env.extracts .thrown)).bind (fun e => e.vendor_name))
          ("Unknown Supplier"),
        documents := files.map (fun f => f.name),
        extracted_data := successExtractions files env.extracts } := by
  simp only [handleFilesAccepted]
  rw [runCore_spec s0 files env.uploads env.extracts env.orch env.now env.rand hne,
    ← successesOf_eq]
  cases env.orch with
  | thrown =>
      simp [stage3, finishRun, orchContinuation, orchCatch, stage3Pre]
  | response k body =>
      cases body with
      | malformed => simp [stage3, finishRun, orchContinuation, orchCatch, stage3Pre]
      | jsonNull => simp [stage3, finishRun, orchContinuation, orchCatch, animate, stage3Pre]
      | value d =>
          simp [stage3, finishRun, orchContinuation, orchSuccess, replayLogs_spec, animate,
            stage3Pre]

theorem ticksAux_zero (step target current : ℚ) : ticksAux step target 0 current = [] := rfl

theorem ticksAux_succ (step target : ℚ) (fuel : ℕ) (current : ℚ) :
    ticksAux step target (fuel + 1) current =
      (if (0 < step ∧ target ≤ current + step) ∨ (step < 0 ∧ current + step ≤ target)
       then [target] else (current + step) :: ticksAux step target fuel (current + step)) := rfl

theorem toFixedRound_close (num den : ℕ) (hden : 0 < den) :
    |(toFixedRound num den : ℚ) - (num : ℚ) / (den : ℚ)| ≤ 1 / 2 := by
  have hge : 2 * den * ((2 * num + den) / (2 * den)) + (2 * num + den) % (2 * den)
      = 2 * num + den := Nat.div_add_mod (2 * num + den) (2 * den)
  have hrlt : (2 * num + den) % (2 * den) < 2 * den := Nat.mod_lt _ (by omega)
  have hden' : (0:ℚ) < (den:ℚ) := by exact_mod_cast hden
  have h2den : (0:ℚ) < 2 * (den:ℚ) := by linarith
  have hcast : 2 * (den:ℚ) * ((toFixedRound num den : ℕ) : ℚ)
      + (((2 * num + den) % (2 * den) : ℕ) : ℚ) = 2 * (num:ℚ) + (den:ℚ) := by
    unfold toFixedRound
    exact_mod_cast hge
  have hrQ : (((2 * num + den) % (2 * den) : ℕ) : ℚ) < 2 * (den:ℚ) := by exact_mod_cast hrlt
  have hr0 : (0:ℚ) ≤ (((2 * num + den) % (2 * den) : ℕ) : ℚ) := by positivity
  have hkey : ((toFixedRound num den : ℕ) : ℚ) - (num:ℚ) / (den:ℚ)
      = ((den:ℚ) - (((2 * num + den) % (2 * den) : ℕ) : ℚ)) / (2 * (den:ℚ)) := by
    rw [eq_div_iff (ne_of_gt h2den)]
    have hq : (num:ℚ) / (den:ℚ) * (den:ℚ) = (num:ℚ) :=
      div_mul_cancel₀ _ (ne_of_gt hden')
    ring_nf
    ring_nf at hcast hq
    linarith [hcast, hq]
  rw [hkey, abs_div, abs_of_pos h2den, div_le_iff₀ h2den]
  rw [abs_le]
  constructor <;> linarith [hrQ, hr0]

/- ## The claims -/

/-- Claim C1, counterexample: the claim asserts that a non-2xx
orchestration response status is a failure that forces all three agents
to ERROR, stages 3-5 to error, and leaves AuditResult null.  The code
never reads `res.ok`: at this input the orchestration response is
non-2xx (`ok := false`) with a JSON-parseable body, and the run ends with
all three agents SUCCESS, all five stages complete, and AuditResult
published. -/
theorem claim_C1_counterexample :
    (fun fin : RunS =>
      fin.st.auditorState = AgentState.SUCCESS ∧
      fin.st.shieldState = AgentState.SUCCESS ∧
      fin.st.actionState = AgentState.SUCCESS ∧
      fin.st.pipelineStages.map (fun s => s.status) =
        [StageStatus.complete, .complete, .complete, .complete, .complete] ∧
      fin.st.auditResult = some {})
    (handleFilesAccepted initialState [sampleFile]
      { uploads := [.result none ("p")],
        extracts := [.ok (some { vendor_name := some ("ACME") }) none],
        orch := OrchOutcome.response false (.value {}), now := 7, rand := 3 }) := by
  decide

/-- Claim C1, amended: for every submit call whose single orchestration
request fails in a way the code detects — a transport exception, a
response body that `res.json()` rejects, or a JSON-`null` body (whose
property access throws inside the `try`) — all three agent statuses end
the session in ERROR, stages 3-5 are marked error, and AuditResult stays
null.  A non-2xx status alone is not detected. -/
theorem claim_C1 (s0 : WarRoomState) (files : List UploadedFile) (env : RunEnv)
    (hne : files ≠ []) (hfail : orchFailsB env.orch = true) :
    (handleFilesAccepted s0 files env).st.auditorState = AgentState.ERROR ∧
    (handleFilesAccepted s0 files env).st.shieldState = AgentState.ERROR ∧
    (handleFilesAccepted s0 files env).st.actionState = AgentState.ERROR ∧
    (handleFilesAccepted s0 files env).st.pipelineStages.map (fun s => s.status) =
      [StageStatus.complete, .complete, .error, .error, .error] ∧
    (handleFilesAccepted s0 files env).st.auditResult = none := by
  rcases run_terminal_cases s0 files env hne with ⟨k, d, horch, _, _⟩ | ⟨_, hst, hres, ha, hs, hac⟩
  · rw [horch] at hfail
    simp [orchFailsB] at hfail
  · exact ⟨ha, hs, hac, hst, hres⟩

/-- Claim C1, witness: the amended theorem applied to a one-file session
whose orchestration call throws. -/
theorem claim_C1_witness :
    ([sampleFile] ≠ ([] : List UploadedFile)) ∧
    orchFailsB (OrchOutcome.thrown) = true ∧
    (handleFilesAccepted initialState [sampleFile] { orch := .thrown, now := 7 }).st.auditorState =
      AgentState.ERROR := by
  exact ⟨by decide, by decide,
    (claim_C1 initialState [sampleFile] { orch := .thrown, now := 7 } (by decide) (by decide)).1⟩

/-- Claim C2: for every submit call with a non-empty file list, once all
awaited calls settle the session is in exactly one of two terminal
states: all 5 stages complete with AuditResult non-null, or stages 3-5
error (stages 1-2 complete) with AuditResult null.  The interpreter is a
total function of the settled outcomes, so neither state is pending. -/
theorem claim_C2 (s0 : WarRoomState) (files : List UploadedFile) (env : RunEnv)
    (hne : files ≠ []) :
    ((handleFilesAccepted s0 files env).st.pipelineStages.map (fun s => s.status) =
        [StageStatus.complete, .complete, .complete, .complete, .complete] ∧
      (handleFilesAccepted s0 files env).st.auditResult ≠ none) ∨
    ((handleFilesAccepted s0 files env).st.pipelineStages.map (fun s => s.status) =
        [StageStatus.complete, .complete, .error, .error, .error] ∧
      (handleFilesAccepted s0 files env).st.auditResult = none) := by
  rcases run_terminal_cases s0 files env hne with ⟨k, d, _, hst, hres⟩ | ⟨_, hst, hres, _, _, _⟩
  · exact Or.inl ⟨hst, by simp [hres]⟩
  · exact Or.inr ⟨hst, hres⟩

/-- Claim C2, witness: the dichotomy at a concrete one-file session with
a successful orchestration call. -/
theorem claim_C2_witness :
    ([sampleFile] ≠ ([] : List UploadedFile)) ∧
    (((handleFilesAccepted initialState [sampleFile]
          { orch := .response true (.value {}), now := 7 }).st.pipelineStages.map (fun s => s.status) =
        [StageStatus.complete, .complete, .complete, .complete, .complete] ∧
      (handleFilesAccepted initialState [sampleFile]
          { orch := .response true (.value {}), now := 7 }).st.auditResult ≠ none) ∨
    ((handleFilesAccepted initialState [sampleFile]
          { orch := .response true (.value {}), now := 7 }).st.pipelineStages.map (fun s => s.status) =
        [StageStatus.complete, .complete, .error, .error, .error] ∧
      (handleFilesAccepted initialState [sampleFile]
          { orch := .response true (.value {}), now := 7 }).st.auditResult = none)) := by
  exact ⟨by decide,
    claim_C2 initialState [sampleFile] { orch := .response true (.value {}), now := 7 } (by decide)⟩

/-- Claim C3, counterexample: the claim asserts `submit([])` mutates no
state.  The total state purge runs before the empty-input check, so a
prior nonzero exposure is reset to 0 by the empty call. -/
theorem claim_C3_counterexample :
    ({ initialState with exposure := 5 } : WarRoomState).exposure = 5 ∧
    (handleFilesAccepted { initialState with exposure := 5 } [] {}).st.exposure = 0 := by
  decide

/-- Claim C3, amended: calling submit with an empty file list generates
no session id, issues no network call, and leaves the current session
id, stage statuses, progress value, stage message, and topology
unchanged — but it first performs the total state purge: findings,
violations, exposure, risk score, event log, AuditResult, and all agent
statuses are reset to their initial values. -/
theorem claim_C3 (s0 : WarRoomState) (env : RunEnv) :
    (handleFilesAccepted s0 [] env).st = purge s0 ∧
    (handleFilesAccepted s0 [] env).eff.persistCalls = [] ∧
    (handleFilesAccepted s0 [] env).eff.orchRequest = none ∧
    (purge s0).currentAuditId = s0.currentAuditId ∧
    (purge s0).pipelineStages = s0.pipelineStages ∧
    (purge s0).extractionProgress = s0.extractionProgress ∧
    (purge s0).currentStage = s0.currentStage ∧
    (purge s0).activeNodes = s0.activeNodes ∧
    (purge s0).isExtracting = s0.isExtracting ∧
    (purge s0).findings = [] ∧ (purge s0).violations = [] ∧
    (purge s0).exposure = 0 ∧ (purge s0).riskScore = 0 ∧
    (purge s0).agentLog = [] ∧ (purge s0).auditResult = none ∧
    (purge s0).auditorState = .IDLE ∧ (purge s0).shieldState = .IDLE ∧
    (purge s0).actionState = .IDLE ∧ (purge s0).selectedAgentFilter = none := by
  refine ⟨?_, ?_, ?_, rfl, rfl, rfl, rfl, rfl, rfl, rfl, rfl, rfl, rfl, rfl, rfl, rfl, rfl, rfl, rfl⟩
  · simp [handleFilesAccepted, runCore]
  · simp [handleFilesAccepted, runCore, consoleOfPersist]
  · simp [handleFilesAccepted, runCore, consoleOfPersist]

/-- Claim C4, evaluation at the failing input: in a first session the
`handleFilesAccepted` closure captured `extractionProgress = 0`; after
`animateProgress(15, 400)` runs to completion (displayed value 15), the
run's next call `animateProgress(30, 1000)` restarts its interpolation
from the captured 0, so the next displayed tick is 6/5 — the displayed
progress drops from 15 to 6/5 within one session, refuting both the
monotonicity and the starts-from-last-displayed-value parts of the
claim. -/
theorem claim_C4_code_divergence :
    staleSessionTrace.get? 10 = some 15 ∧
    staleSessionTrace.get? 11 = some ((6 : ℚ)/5) ∧
    ¬ (∀ (i : ℕ) (a b : ℚ), staleSessionTrace.get? i = some a →
        staleSessionTrace.get? (i + 1) = some b → a ≤ b) := by
  have h10 : staleSessionTrace.get? 10 = some 15 := by with_unfolding_all rfl
  have h11 : staleSessionTrace.get? 11 = some ((6 : ℚ)/5) := by with_unfolding_all rfl
  refine ⟨h10, h11, fun h => ?_⟩
  have hle := h 10 15 (6/5) h10 h11
  norm_num at hle

/-- Claim C5, counterexample: the claim asserts the result-application
code is guarded by a session-id check, so a stale resolution never
updates state belonging to the new session.  Applying the orchestration
continuation of superseded session VERITY-1 to a state whose current
session is VERITY-2 updates the agent statuses, the stage statuses, the
topology, and AuditResult all the same. -/
theorem claim_C5_counterexample :
    (fun stale : RunS =>
      ({ initialState with currentAuditId := "VERITY-2" } : WarRoomState).currentAuditId ≠ "VERITY-1" ∧
      stale.st.auditorState = AgentState.SUCCESS ∧
      stale.st.auditResult = some {} ∧
      stale.st.pipelineStages.map (fun s => s.status) ≠
        initialState.pipelineStages.map (fun s => s.status) ∧
      stale.st.activeNodes ≠ initialState.activeNodes)
    (orchContinuation ("VERITY-1") (.response true (.value {}))
      ⟨{ initialState with currentAuditId := "VERITY-2" }, {}, 0⟩) := by
  decide

/-- Claim C5, amended: in-flight requests of a superseded session are not
cancelled and their resolutions are NOT discarded — the orchestration
continuation carries no session-id guard, so even when the current
session id differs from the issuing session's id, the resolution still
publishes its AuditResult, moves the Auditor and Shield agents to
SUCCESS, and overwrites the exposure. -/
theorem claim_C5 (r : RunS) (aid : String) (k : Bool) (d : AuditData)
    (_hdiff : r.st.currentAuditId ≠ aid) :
    (orchContinuation aid (.response k (.value d)) r).st.auditResult = some d ∧
    (orchContinuation aid (.response k (.value d)) r).st.auditorState = AgentState.SUCCESS ∧
    (orchContinuation aid (.response k (.value d)) r).st.shieldState = AgentState.SUCCESS ∧
    (orchContinuation aid (.response k (.value d)) r).st.exposure =
      d.total_financial_exposure_eur.getD 0 := by
  refine ⟨?_, ?_, ?_, ?_⟩ <;>
    simp [orchContinuation, orchSuccess, orchSuccessState, replayLogs_spec, animate]

/-- Claim C5, witness: the amended theorem applied to an initial state
rekeyed to session VERITY-2 and the continuation of session VERITY-1. -/
theorem claim_C5_witness :
    (({ initialState with currentAuditId := "VERITY-2" } : WarRoomState).currentAuditId ≠ "VERITY-1") ∧
    (orchContinuation ("VERITY-1") (.response true (.value {}))
      ⟨{ initialState with currentAuditId := "VERITY-2" }, {}, 0⟩).st.auditResult = some {} := by
  exact ⟨by decide,
    (claim_C5 ⟨{ initialState with currentAuditId := "VERITY-2" }, {}, 0⟩ ("VERITY-1") true {}
      (by decide)).1⟩

/-- Claim C6: during the extraction stage each per-file failure (non-2xx
response, malformed response, transport exception — and also a parsed
body whose status is not success) is logged at severity ERROR while a
success is logged INFO; the loop appends exactly one entry per file
inside the run's log; the stage always ends complete (stage index 1, even
when every file fails); and the aggregate sent to orchestration contains
exactly the extraction objects of the files that succeeded, in file
submission order. -/
theorem claim_C6 (s0 : WarRoomState) (files : List UploadedFile) (env : RunEnv)
    (hne : files ≠ []) :
    (∃ pre post : List AgentLogEntry,
      (handleFilesAccepted s0 files env).st.agentLog =
        pre ++ extractEntries (sessionId env.now) (1 + files.length + 1 + 1)
          (withOutcomes files env.extracts .thrown) ++ post) ∧
    (extractEntries (sessionId env.now) (1 + files.length + 1 + 1)
        (withOutcomes files env.extracts .thrown)).map (fun e => e.severity) =
      (withOutcomes files env.extracts .thrown).map
        (fun p => if extractFailed p.2 then Severity.ERROR else Severity.INFO) ∧
    (extractEntries (sessionId env.now) (1 + files.length + 1 + 1)
        (withOutcomes files env.extracts .thrown)).length = files.length ∧
    ((handleFilesAccepted s0 files env).st.pipelineStages.map (fun s => s.status)).get? 1 =
      some StageStatus.complete ∧
    (∃ req : OrchRequest, (handleFilesAccepted s0 files env).eff.orchRequest = some req ∧
      req.extracted_data = successExtractions files env.extracts) := by
  obtain ⟨post, hpost, hlog, hcalls⟩ := run_log_split s0 files env hne
  refine ⟨?_, extractEntries_map_severity _ _ _, ?_, ?_, ?_⟩
  · exact ⟨preExtractLog (sessionId env.now) files env.uploads, post,
      by rw [hlog, preOrchLog_eq, List.append_assoc]⟩
  · rw [extractEntries_length, withOutcomes_length]
  · rcases run_terminal_cases s0 files env hne with ⟨k, d, _, hst, _⟩ | ⟨_, hst, _, _, _, _⟩ <;>
      rw [hst] <;> rfl
  · exact ⟨_, run_orchRequest s0 files env hne, rfl⟩

/-- Claim C6, witness: a two-file session in which the first extraction
fails with a non-2xx backend response and the second succeeds; the stage
still completes and the aggregate carries exactly the successful
extraction. -/
theorem claim_C6_witness :
    ([sampleFile, sampleFile] ≠ ([] : List UploadedFile)) ∧
    (((handleFilesAccepted initialState [sampleFile, sampleFile]
        { extracts := [.httpError 500 ("boom"), .ok (some { vendor_name := some ("ACME") }) none],
          orch := .thrown, now := 2 }).st.pipelineStages.map (fun s => s.status)).get? 1 =
      some StageStatus.complete) ∧
    (∃ req : OrchRequest,
      (handleFilesAccepted initialState [sampleFile, sampleFile]
        { extracts := [.httpError 500 ("boom"), .ok (some { vendor_name := some ("ACME") }) none],
          orch := .thrown, now := 2 }).eff.orchRequest = some req ∧
      req.extracted_data = successExtractions [sampleFile, sampleFile]
        [.httpError 500 ("boom"), .ok (some { vendor_name := some ("ACME") }) none]) := by
  refine ⟨by decide, ?_, ?_⟩
  · exact (claim_C6 initialState [sampleFile, sampleFile]
      { extracts := [.httpError 500 ("boom"), .ok (some { vendor_name := some ("ACME") }) none],
        orch := .thrown, now := 2 } (by decide)).2.2.2.1
  · exact (claim_C6 initialState [sampleFile, sampleFile]
      { extracts := [.httpError 500 ("boom"), .ok (some { vendor_name := some ("ACME") }) none],
        orch := .thrown, now := 2 } (by decide)).2.2.2.2

/-- Claim C7: the risk-tier banding of `ComplianceGauge.getColor` maps
every risk value in [0, 1] to neutral/compliant (stroke `#00FF41`) on
[0, 0.01), informational (`#00E5FF`) on [0.01, 0.5), warning (`#FFB800`)
on [0.5, 0.8), and critical (`#FF0040`) on [0.8, 1], inclusive at every
lower edge. -/
theorem claim_C7 (r : ℚ) (_hlo : 0 ≤ r) (_hhi : r ≤ 1) :
    (r < 1/100 → (ComplianceGauge.getColor r).stroke = "#00FF41") ∧
    (1/100 ≤ r → r < 1/2 → (ComplianceGauge.getColor r).stroke = "#00E5FF") ∧
    (1/2 ≤ r → r < 4/5 → (ComplianceGauge.getColor r).stroke = "#FFB800") ∧
    (4/5 ≤ r → (ComplianceGauge.getColor r).stroke = "#FF0040") := by
  refine ⟨fun h => ?_, fun ha hb => ?_, fun ha hb => ?_, fun h => ?_⟩ <;>
    (unfold ComplianceGauge.getColor
     split_ifs with c1 c2 c3 <;> first | rfl | linarith)

/-- Claim C7, witness: risk score 0.82 renders critical and 0.49 renders
informational. -/
theorem claim_C7_witness :
    (0:ℚ) ≤ 82/100 ∧ (82/100:ℚ) ≤ 1 ∧
    (ComplianceGauge.getColor (82/100)).stroke = "#FF0040" ∧
    (ComplianceGauge.getColor (49/100)).stroke = "#00E5FF" := by
  exact ⟨by norm_num, by norm_num,
    (claim_C7 (82/100) (by norm_num) (by norm_num)).2.2.2 (by norm_num),
    (claim_C7 (49/100) (by norm_num) (by norm_num)).2.1 (by norm_num) (by norm_num)⟩

/-- Claim C8: for every integer euro amount, `formatEUR` renders amounts
of at least 1,000,000 as `€x.xM` — a digit string with exactly one
decimal place whose value is within 0.05 of the amount in millions (and
at least 1.0) — amounts in [1,000, 1,000,000) as `€xK` with an integer
count of thousands within 0.5 of the amount in thousands, and amounts
below 1,000 as the literal integer euro amount. -/
theorem claim_C8 (n : ℤ) :
    (1000000 ≤ n →
      ∃ m : ℕ, formatEUR n = "€" ++ (toString (m / 10) ++ "." ++ toString (m % 10)) ++ "M" ∧
        10 ≤ m ∧ |((m : ℚ) / 10) - (n : ℚ) / 1000000| ≤ 1 / 20) ∧
    (1000 ≤ n → n < 1000000 →
      ∃ k : ℕ, formatEUR n = "€" ++ toString k ++ "K" ∧
        |((k : ℚ)) - (n : ℚ) / 1000| ≤ 1 / 2) ∧
    (n < 1000 → formatEUR n = "€" ++ toString n) := by
  refine ⟨fun h => ?_, fun ha hb => ?_, fun h => ?_⟩
  · refine ⟨toFixedRound (10 * n.toNat) 1000000, ?_, ?_, ?_⟩
    · simp [formatEUR, toFixed1, h]
    · have hnn : 1000000 ≤ n.toNat := by omega
      unfold toFixedRound
      rw [Nat.le_div_iff_mul_le (by norm_num)]
      omega
    · have hc := toFixedRound_close (10 * n.toNat) 1000000 (by norm_num)
      have htn : ((n.toNat : ℕ) : ℚ) = (n : ℚ) := by
        exact_mod_cast Int.toNat_of_nonneg (by omega)
      have hkey : ((toFixedRound (10 * n.toNat) 1000000 : ℕ) : ℚ) / 10 - (n : ℚ) / 1000000
          = (((toFixedRound (10 * n.toNat) 1000000 : ℕ) : ℚ)
              - ((10 * n.toNat : ℕ) : ℚ) / ((1000000 : ℕ) : ℚ)) / 10 := by
        push_cast [htn]
        ring
      rw [hkey, abs_div, abs_of_pos (show (0:ℚ) < 10 by norm_num),
        div_le_iff₀ (show (0:ℚ) < 10 by norm_num)]
      exact le_trans hc (by norm_num)
  · refine ⟨toFixedRound n.toNat 1000, ?_, ?_⟩
    · simp [formatEUR, toFixed0, show ¬ (1000000 ≤ n) by omega, ha]
    · have hc := toFixedRound_close n.toNat 1000 (by norm_num)
      have htn : ((n.toNat : ℕ) : ℚ) = (n : ℚ) := by
        exact_mod_cast Int.toNat_of_nonneg (by omega)
      have hkey : ((toFixedRound n.toNat 1000 : ℕ) : ℚ) - (n : ℚ) / 1000
          = ((toFixedRound n.toNat 1000 : ℕ) : ℚ) - ((n.toNat : ℕ) : ℚ) / ((1000 : ℕ) : ℚ) := by
        push_cast [htn]
        ring
      rw [hkey]
      exact hc
  · simp [formatEUR, show ¬ (1000000 ≤ n) by omega, show ¬ (1000 ≤ n) by omega]

/-- Claim C8, witness: the theorem applied at 2,500,000 (the M branch)
and at 950 (the literal branch, yielding `€950`). -/
theorem claim_C8_witness :
    (1000000 ≤ (2500000 : ℤ)) ∧
    (∃ m : ℕ, formatEUR 2500000 = "€" ++ (toString (m / 10) ++ "." ++ toString (m % 10)) ++ "M" ∧
      10 ≤ m ∧ |((m : ℚ) / 10) - ((2500000 : ℤ) : ℚ) / 1000000| ≤ 1 / 20) ∧
    formatEUR 950 = "€950" := by
  refine ⟨by norm_num, (claim_C8 2500000).1 (by norm_num), ?_⟩
  have h := (claim_C8 950).2.2 (by norm_num)
  rw [h]
  rfl

/-- Claim C9: every event-log append through `pushLog` is applied to the
local log synchronously and fires exactly one non-awaited persistence
call when the entry carries a (truthy) session id; in a run every
appended entry carries the active session id, so every append fires
exactly one persistence call keyed by it, never retried; and the
settled outcomes of those fire-and-forget calls reach only the
diagnostic console — they change neither the component state nor the
calls and request the run issues. -/
theorem claim_C9 :
    (∀ (s : WarRoomState) (eff : Effects) (e : AgentLogEntry),
      pushLogStep s eff e =
        ({ s with agentLog := s.agentLog ++ [e] },
         { eff with persistCalls := eff.persistCalls ++ entryCall e })) ∧
    (∀ (e : AgentLogEntry) (a : String), e.audit_id = some a → a ≠ "" →
      entryCall e = [{ audit_id := a, agent := e.agent, action := e.action,
                       details := e.details, severity := e.severity }]) ∧
    (∀ (s0 : WarRoomState) (files : List UploadedFile) (env : RunEnv), files ≠ [] →
      (handleFilesAccepted s0 files env).eff.persistCalls =
        (handleFilesAccepted s0 files env).st.agentLog.map (fun e =>
          ({ audit_id := sessionId env.now, agent := e.agent, action := e.action,
             details := e.details, severity := e.severity } : PersistCall)) ∧
      (handleFilesAccepted s0 files env).eff.persistCalls.length =
        (handleFilesAccepted s0 files env).st.agentLog.length ∧
      (∀ c ∈ (handleFilesAccepted s0 files env).eff.persistCalls,
        c.audit_id = sessionId env.now)) ∧
    (∀ (s0 : WarRoomState) (files : List UploadedFile) (env : RunEnv)
        (p : List (Option String)),
      (handleFilesAccepted s0 files { env with persistFails := p }).st =
        (handleFilesAccepted s0 files env).st ∧
      (handleFilesAccepted s0 files { env with persistFails := p }).eff.persistCalls =
        (handleFilesAccepted s0 files env).eff.persistCalls ∧
      (handleFilesAccepted s0 files { env with persistFails := p }).eff.orchRequest =
        (handleFilesAccepted s0 files env).eff.orchRequest ∧
      (handleFilesAccepted s0 files { env with persistFails := p }).eff.console =
        consoleOfPersist (handleFilesAccepted s0 files env).eff.persistCalls p) := by
  refine ⟨?_, ?_, ?_, ?_⟩
  · intro s eff e
    unfold pushLogStep entryCall
    cases h : e.audit_id with
    | none => simp
    | some a => by_cases ha : a = "" <;> simp [ha]
  · intro e a h ha
    simp [entryCall, h, ha]
  · intro s0 files env hne
    obtain ⟨post, hpost, hlog, hcalls⟩ := run_log_split s0 files env hne
    have hids : ∀ e ∈ (handleFilesAccepted s0 files env).st.agentLog,
        e.audit_id = some (sessionId env.now) := by
      rw [hlog]
      intro e he
      rcases List.mem_append.mp he with h | h
      · exact preOrchLog_mem _ _ _ _ e h
      · exact hpost e h
    rw [← hlog] at hcalls
    have hfirst := hcalls.trans
      (persistOf_of_mem (sessionId env.now) (sessionId_ne_empty env.now) _ hids)
    refine ⟨hfirst, ?_, ?_⟩
    · rw [hfirst]
      exact List.length_map _ _
    · intro c hc
      rw [hfirst] at hc
      obtain ⟨e, _, rfl⟩ := List.mem_map.mp hc
      rfl
  · intro s0 files env p
    exact ⟨rfl, rfl, rfl, rfl⟩

/-- Claim C9, witness: the run-level component applied to a concrete
one-file session — the number of persistence calls fired equals the
number of entries appended. -/
theorem claim_C9_witness :
    ([sampleFile] ≠ ([] : List UploadedFile)) ∧
    (handleFilesAccepted initialState [sampleFile] { now := 3 }).eff.persistCalls.length =
      (handleFilesAccepted initialState [sampleFile] { now := 3 }).st.agentLog.length := by
  exact ⟨by decide,
    (claim_C9.2.2.1 initialState [sampleFile] { now := 3 } (by decide)).2.1⟩

/-- Claim C10, counterexample: the claim says `supplier_name` equals the
`vendor_name` of the last successful extraction, defaulting only when no
extraction succeeded or the field is absent.  Here the one extraction
succeeds and its `vendor_name` is present but empty — a falsy string, so
the `||` fallback fires and the request carries "Unknown Supplier"
instead of the empty vendor name. -/
theorem claim_C10_counterexample :
    lastSuccess none (withOutcomes [sampleFile]
        [ExtractOutcome.ok (some { vendor_name := some ("") }) none] .thrown) =
      some { vendor_name := some ("") } ∧
    (handleFilesAccepted initialState [sampleFile]
        { extracts := [.ok (some { vendor_name := some ("") }) none], now := 1 }).eff.orchRequest =
      some { batch_id := "VERITY-1", supplier_id := "SUP-0",
             supplier_name := "Unknown Supplier", documents := ["invoice.pdf"],
             extracted_data := [some { vendor_name := some ("") }] } ∧
    ("Unknown Supplier" : String) ≠ "" := by
  decide

/-- Claim C10, amended: for every submit with a non-empty file list, the
orchestration request carries exactly the per-file extraction objects of
the successful files in submission order, the file-name list, the
session id as batch id, and a supplier name equal to the last successful
extraction's `vendor_name` when that field is present and non-empty,
and "Unknown Supplier" otherwise (no success, field absent, or field
empty — JavaScript `||` treats the empty string as falsy). -/
theorem claim_C10 (s0 : WarRoomState) (files : List UploadedFile) (env : RunEnv)
    (hne : files ≠ []) :
    ∃ req : OrchRequest,
      (handleFilesAccepted s0 files env).eff.orchRequest = some req ∧
      req.extracted_data = successExtractions files env.extracts ∧
      req.documents = files.map (fun f => f.name) ∧
      req.batch_id = sessionId env.now ∧
      req.supplier_name = jsOrString
        ((lastSuccess none (withOutcomes files env.extracts .thrown)).bind (fun e => e.vendor_name))
        ("Unknown Supplier") := by
  exact ⟨_, run_orchRequest s0 files env hne, rfl, rfl, rfl, rfl⟩

/-- Claim C10, witness: the amended theorem applied to a one-file session
whose extraction succeeds with vendor name "ACME". -/
theorem claim_C10_witness :
    ([sampleFile] ≠ ([] : List UploadedFile)) ∧
    (∃ req : OrchRequest,
      (handleFilesAccepted initialState [sampleFile]
        { extracts := [.ok (some { vendor_name := some ("ACME") }) none], now := 5 }).eff.orchRequest =
          some req ∧
      req.extracted_data = successExtractions [sampleFile]
        [.ok (some { vendor_name := some ("ACME") }) none] ∧
      req.documents = [sampleFile].map (fun f => f.name) ∧
      req.batch_id = sessionId 5 ∧
      req.supplier_name = jsOrString
        ((lastSuccess none (withOutcomes [sampleFile]
          [.ok (some { vendor_name := some ("ACME") }) none] .thrown)).bind (fun e => e.vendor_name))
        ("Unknown Supplier")) := by
  exact ⟨by decide,
    claim_C10 initialState [sampleFile]
      { extracts := [.ok (some { vendor_name := some ("ACME") }) none], now := 5 } (by decide)⟩

end VerityNodes
